import Mathlib

/-!
Shallow embedding of the smm-chat-server reward and chat logic.

The definitions below are translated from `src/server.js` (the reward
endpoints, the rank calculation and the websocket chat handler) and from
`src/unnamed/part_002` (the `pin_message` handler).  JavaScript numbers
appearing in balance and reward arithmetic are modelled as rationals;
millisecond clock values as integers; JSON string fields as `String`,
where a missing/empty field is the empty string (matching JS truthiness
for the string fields the code tests).  Network effects (RPC balance
queries, transaction submission) are modelled by passing the observed
chain data / transfer outcome as explicit parameters, and the execution
order of the side-effecting statements of the claim endpoint is recorded
as an explicit action trace.
-/

/-- The configured token mint constant `SMM_TOKEN_MINT` (server.js line 99),
rendered as its base-58 string. -/
def SMM_TOKEN_MINT : String := "BbDK2SdFKstCuCjF152jWaRVmJMV7hHUW4xYvdMbjups"

/-- The admin wallet constant `ADMIN_WALLET` of server.js (line 98). -/
def ADMIN_WALLET : String := "Hs7LzaMG6vrhfnHmJXhPx98uyYyEscdXT93dLKKxWQYF"

/-- The admin wallet constant of the `src/unnamed/part_002` variant (line 137). -/
def ADMIN_WALLET_V2 : String := "Cj64jfCQ2dR5Utf62nMnmEq8fjerAk4u1mZY1Hv53QZA"

/-- A parsed token account as returned by `getParsedTokenAccountsByOwner`:
the mint it holds (`account.data.parsed.info.mint`) and the parsed
ui-amount (`account.data.parsed.info.tokenAmount.uiAmount`). -/
structure TokenAccount where
  mint : String
  uiAmount : ℚ
deriving DecidableEq, Repr

/-- The balance-lookup loop of server.js (lines 412-418, repeated at
466-472 and 568-574):

`let balance = 0; for (const {account} of tokenAccounts.value) {
  if (account.data.parsed.info.mint === MINT) {
    balance = parseFloat(...uiAmount); break; } }`

The loop assigns the first matching account's ui-amount and breaks. -/
def balanceOf : List TokenAccount → String → ℚ
  | [], _ => 0
  | a :: rest, mint => if a.mint == mint then a.uiAmount else balanceOf rest mint

/-- Modelled from the spec: `balanceOf` per §4.2, "summing parsed
ui-amounts (defensive: if multiple accounts exist, sum; if none,
balance is 0)".  Stated for comparison with the source's `balanceOf`. -/
def balanceOfSpecSum (tokenAccounts : List TokenAccount) (mint : String) : ℚ :=
  ((tokenAccounts.filter (fun a => a.mint == mint)).map TokenAccount.uiAmount).sum

/-- The rank ternary chain of server.js (lines 576-580). -/
def calculateRank (tokenBalance : ℚ) : String :=
  if tokenBalance ≥ 1000000 then "Rhodium"
  else if tokenBalance ≥ 750000 then "Platinum"
  else if tokenBalance ≥ 500000 then "Gold"
  else if tokenBalance ≥ 250000 then "Silver"
  else if tokenBalance ≥ 100000 then "Bronze"
  else "No Rank"

/-- Modelled from the spec: the §4.3 rank table, "ordered thresholds
evaluated highest-first, first match wins".  Stated for comparison with
the source's `calculateRank`. -/
def rankSpecFirstMatch (b : ℚ) : String :=
  match (
    [((1000000 : ℚ), "Rhodium"), (750000, "Platinum"), (500000, "Gold"),
      (250000, "Silver"), (100000, "Bronze")]).find? (fun p => decide (p.1 ≤ b)) with
  | some p => p.2
  | none => "No Rank"

/-- C2 counterexample: with two token accounts holding the configured mint
with amounts 1 and 2, the code's balance lookup returns 1 (the first
account's amount — the loop breaks), not the sum 3 claimed by the spec. -/
theorem c2_counterexample :
    balanceOf [⟨SMM_TOKEN_MINT, 1⟩, ⟨SMM_TOKEN_MINT, 2⟩] SMM_TOKEN_MINT = 1 ∧
    balanceOfSpecSum [⟨SMM_TOKEN_MINT, 1⟩, ⟨SMM_TOKEN_MINT, 2⟩] SMM_TOKEN_MINT = 3 ∧
    balanceOf [⟨SMM_TOKEN_MINT, 1⟩, ⟨SMM_TOKEN_MINT, 2⟩] SMM_TOKEN_MINT ≠
      balanceOfSpecSum [⟨SMM_TOKEN_MINT, 1⟩, ⟨SMM_TOKEN_MINT, 2⟩] SMM_TOKEN_MINT := by
  refine ⟨?_, ?_, ?_⟩ <;> norm_num [balanceOf, balanceOfSpecSum]

/-- C2 (amended): the balance lookup returns the ui-amount of the first
token account matching the mint (0 when none exists, so the no-account
case of the claim holds); it agrees with the spec's sum exactly when at
most one matching account exists. -/
theorem c2_theorem (tokenAccounts : List TokenAccount) (mint : String) :
    balanceOf tokenAccounts mint =
      (((tokenAccounts.find? (fun a => a.mint == mint)).map TokenAccount.uiAmount).getD 0) ∧
    ((tokenAccounts.filter (fun a => a.mint == mint)).length ≤ 1 →
      balanceOf tokenAccounts mint = balanceOfSpecSum tokenAccounts mint) := by
  constructor
  · induction tokenAccounts with
    | nil => rfl
    | cons a rest ih =>
      by_cases h : a.mint == mint <;> simp [balanceOf, List.find?, h, ih]
  · intro hlen
    induction tokenAccounts with
    | nil => rfl
    | cons a rest ih =>
      by_cases h : a.mint == mint
      · simp only [List.filter_cons, h, if_pos] at hlen
        have hrest : rest.filter (fun a => a.mint == mint) = [] := by
          cases hfil : rest.filter (fun a => a.mint == mint) with
          | nil => rfl
          | cons b l => simp [hfil] at hlen
        have hsum : balanceOfSpecSum rest mint = 0 := by
          simp [balanceOfSpecSum, hrest]
        simp [balanceOf, balanceOfSpecSum, List.filter_cons, h, hrest]
      · simp only [List.filter_cons, h] at hlen
        simp only [Bool.false_eq_true, if_false] at hlen
        have := ih hlen
        simp [balanceOf, balanceOfSpecSum, List.filter_cons, h] at this ⊢
        exact this

/-- C2 witness: a single matching account of amount 5 — the lookup
returns 5, and (at most one match) it equals the spec's sum. -/
theorem c2_witness :
    balanceOf [⟨SMM_TOKEN_MINT, 5⟩] SMM_TOKEN_MINT =
      ((([(⟨SMM_TOKEN_MINT, 5⟩ : TokenAccount)].find?
          (fun a => a.mint == SMM_TOKEN_MINT)).map TokenAccount.uiAmount).getD 0) ∧
    balanceOf [⟨SMM_TOKEN_MINT, 5⟩] SMM_TOKEN_MINT =
      balanceOfSpecSum [⟨SMM_TOKEN_MINT, 5⟩] SMM_TOKEN_MINT :=
  ⟨(c2_theorem [⟨SMM_TOKEN_MINT, 5⟩] SMM_TOKEN_MINT).1,
   (c2_theorem [⟨SMM_TOKEN_MINT, 5⟩] SMM_TOKEN_MINT).2 (by decide)⟩

/-- C3: the rank mapping is the spec's highest-first first-match threshold
table, thresholds closed at the lower bound: balance exactly 1,000,000
maps to Rhodium, exactly 100,000 to Bronze, and 99,999.999 to No Rank. -/
theorem c3_theorem :
    (∀ b : ℚ, calculateRank b = rankSpecFirstMatch b) ∧
    calculateRank 1000000 = "Rhodium" ∧
    calculateRank 100000 = "Bronze" ∧
    calculateRank (99999999 / 1000) = "No Rank" := by
  refine ⟨?_, by norm_num [calculateRank], by norm_num [calculateRank],
    by norm_num [calculateRank]⟩
  intro b
  simp only [calculateRank, rankSpecFirstMatch, List.find?, ge_iff_le]
  by_cases h1 : (1000000 : ℚ) ≤ b
  · simp [h1]
  · by_cases h2 : (750000 : ℚ) ≤ b
    · simp [h1, h2]
    · by_cases h3 : (500000 : ℚ) ≤ b
      · simp [h1, h2, h3]
      · by_cases h4 : (250000 : ℚ) ≤ b
        · simp [h1, h2, h3, h4]
        · by_cases h5 : (100000 : ℚ) ≤ b
          · simp [h1, h2, h3, h4, h5]
          · simp [h1, h2, h3, h4, h5]

/-- The claim cooldown `claimPeriod = 24 * 60 * 60 * 1000` milliseconds
(server.js lines 427 and 480). -/
def claimPeriod : Int := 24 * 60 * 60 * 1000

/-- JS object property assignment `claims[claimKey] = {timestamp: now}`
(server.js line 511) on the claims map, modelled as an association list:
replace the existing binding in place, or append a new one. -/
def setClaim : List (String × Int) → String → Int → List (String × Int)
  | [], w, t => [(w, t)]
  | (k, v) :: rest, w, t =>
      if k == w then (k, t) :: rest else (k, v) :: setClaim rest w t

/-- The JSON body of `GET /rewards/:walletAddress` (server.js line 433). -/
structure RewardsResponse where
  balance : ℚ
  dailyReward : ℚ
  canClaim : Bool
  lastClaim : Int
deriving DecidableEq, Repr

/-- The `GET /rewards/:walletAddress` handler on the valid-wallet path
(server.js lines 407-433): balance from the token-accounts loop,
`annualReward = balance * 0.10`, `dailyReward = annualReward / 365`,
`lastClaim = claims[claimKey]?.timestamp || 0`, and
`canClaim = now - lastClaim > claimPeriod`.  The observed chain accounts
and the claims store are passed in explicitly. -/
def getRewards (walletAddress : String) (tokenAccounts : List TokenAccount)
    (claims : List (String × Int)) (now : Int) : RewardsResponse :=
  let balance := balanceOf tokenAccounts SMM_TOKEN_MINT
  let annualReward := balance * (0.10 : ℚ)
  let dailyReward := annualReward / 365
  let lastClaim := (claims.lookup walletAddress).getD 0
  ⟨balance, dailyReward, decide (now - lastClaim > claimPeriod), lastClaim⟩

/-- Outcome of the payout transfer: `sendRawTransaction` and
`confirmTransaction` (server.js lines 506-507) each either succeed or
throw; the thrown cases land in the handler's catch block. -/
inductive TransferOutcome
  | ok (sig : String)
  | submitFailed
  | confirmFailed
deriving DecidableEq, Repr

/-- Side-effecting steps of `POST /claim-reward`, in the order the
corresponding statements appear in server.js: `sendRawTransaction`
(line 506), `confirmTransaction` (line 507), `saveClaims` (line 512). -/
inductive ClaimAction
  | submitTransfer
  | confirmTransfer
  | saveClaims
deriving DecidableEq, Repr

/-- The JSON body and HTTP status returned by `POST /claim-reward`;
fields the code never sets in a given branch are `none`. -/
structure ClaimResponse where
  status : Nat
  error : Option String
  success : Option Bool
  amount : Option ℚ
  signature : Option String
  nextEligibleAt : Option Int
deriving DecidableEq, Repr

/-- Result of one `POST /claim-reward` request: the response, the claims
store after the request, and the trace of side-effecting actions run. -/
structure ClaimOutcome where
  response : ClaimResponse
  claims : List (String × Int)
  trace : List ClaimAction
deriving DecidableEq, Repr

/-- The `POST /claim-reward` handler (server.js lines 441-519).
`walletValid` stands for `new PublicKey(walletAddress)` not throwing;
`tokenAccounts` is the chain response; `transfer` the outcome of the
submit/confirm pair.  Cooldown check (line 482):
`claims[claimKey] && now - claims[claimKey].timestamp < claimPeriod`
→ 400 "Reward already claimed for this period" (no other field).
Otherwise the transfer runs; on success the claims store is updated
(line 511-512) and `{success, amount, signature}` returned; a throw from
submit or confirm reaches the catch block → 500 "Failed to process
claim" with the claims store untouched. -/
def claimReward (walletAddress : String) (walletValid : Bool)
    (tokenAccounts : List TokenAccount) (claims : List (String × Int))
    (now : Int) (transfer : TransferOutcome) : ClaimOutcome :=
  if walletAddress == "" then
    ⟨⟨400, some "Wallet address required", none, none, none, none⟩, claims, []⟩
  else if !walletValid then
    ⟨⟨400, some "Invalid wallet address", none, none, none, none⟩, claims, []⟩
  else
    let balance := balanceOf tokenAccounts SMM_TOKEN_MINT
    let annualReward := balance * (0.10 : ℚ)
    let dailyReward := annualReward / 365
    let rewardAmount : Int := ⌊dailyReward * 1000000⌋
    if (claims.lookup walletAddress).any (fun ts => decide (now - ts < claimPeriod)) then
      ⟨⟨400, some "Reward already claimed for this period", none, none, none, none⟩,
        claims, []⟩
    else
      match transfer with
      | .ok sig =>
          ⟨⟨200, none, some true, some ((rewardAmount : ℚ) / 1000000), some sig, none⟩,
            setClaim claims walletAddress now,
            [.submitTransfer, .confirmTransfer, .saveClaims]⟩
      | .submitFailed =>
          ⟨⟨500, some "Failed to process claim", none, none, none, none⟩, claims,
            [.submitTransfer]⟩
      | .confirmFailed =>
          ⟨⟨500, some "Failed to process claim", none, none, none, none⟩, claims,
            [.submitTransfer, .confirmTransfer]⟩

/-- C6: for every wallet, the rewards quote returns the balance, a daily
reward equal to balance * 0.10 / 365, canClaim true exactly when
now - lastClaim strictly exceeds the 24-hour cooldown, and lastClaim
taken from the claim record with default 0 when the wallet has none. -/
theorem c6_theorem (walletAddress : String) (tokenAccounts : List TokenAccount)
    (claims : List (String × Int)) (now : Int) :
    (getRewards walletAddress tokenAccounts claims now).balance =
      balanceOf tokenAccounts SMM_TOKEN_MINT ∧
    (getRewards walletAddress tokenAccounts claims now).dailyReward =
      (getRewards walletAddress tokenAccounts claims now).balance * (0.10 : ℚ) / 365 ∧
    ((getRewards walletAddress tokenAccounts claims now).canClaim = true ↔
      now - (getRewards walletAddress tokenAccounts claims now).lastClaim > claimPeriod) ∧
    (getRewards walletAddress tokenAccounts claims now).lastClaim =
      (claims.lookup walletAddress).getD 0 := by
  refine ⟨rfl, rfl, ?_, rfl⟩
  simp [getRewards]

/-- C5 counterexample: a denied claim (last claim at time 0, now 1) is
answered with status 400 but the response carries no `nextEligibleAt`
value, contrary to the claim. -/
theorem c5_counterexample :
    (claimReward "w" true [] [("w", 0)] 1 (TransferOutcome.ok "sig")).response.status
      = 400 ∧
    (claimReward "w" true [] [("w", 0)] 1
        (TransferOutcome.ok "sig")).response.nextEligibleAt = none := by
  constructor <;> rfl

/-- C5 (amended): a wallet with a recorded claim strictly less than 24h
old is denied with status 400 and error "Reward already claimed for this
period", without a `nextEligibleAt` field; the claims store is unchanged
and no transfer action runs. -/
theorem c5_theorem (walletAddress : String) (tokenAccounts : List TokenAccount)
    (claims : List (String × Int)) (now ts : Int) (transfer : TransferOutcome)
    (hW : walletAddress ≠ "")
    (hLookup : claims.lookup walletAddress = some ts)
    (hCool : now - ts < claimPeriod) :
    claimReward walletAddress true tokenAccounts claims now transfer =
      ⟨⟨400, some "Reward already claimed for this period", none, none, none, none⟩,
        claims, []⟩ := by
  have hW' : (walletAddress == "") = false := by simp [hW]
  simp [claimReward, hW', hLookup, hCool]

/-- C5 witness: wallet "w" last claimed at 0, queried at 1 — denied with
400, the fixed error string, unchanged store and empty action trace. -/
theorem c5_witness :
    claimReward "w" true [] [("w", 0)] 1 TransferOutcome.submitFailed =
      ⟨⟨400, some "Reward already claimed for this period", none, none, none, none⟩,
        [("w", 0)], []⟩ :=
  c5_theorem "w" [] [("w", 0)] 1 0 TransferOutcome.submitFailed (by decide)
    (by decide) (by decide)

/-- C1 counterexample: on an allowed claim that succeeds, the action trace
is submit, confirm, then saveClaims — the claim-record update follows the
transfer attempt instead of preceding it; and when the transfer attempt
fails, no record is written at all. -/
theorem c1_counterexample :
    (claimReward "w" true [] [] 5 (TransferOutcome.ok "sig")).trace =
      [ClaimAction.submitTransfer, ClaimAction.confirmTransfer, ClaimAction.saveClaims] ∧
    (claimReward "w" true [] [] 5 TransferOutcome.submitFailed).claims = [] ∧
    ClaimAction.saveClaims ∉ (claimReward "w" true [] [] 5
        TransferOutcome.submitFailed).trace := by
  refine ⟨rfl, rfl, by decide⟩

/-- C1 (amended): on every allowed claim, the claim-record update happens
only after the transfer is submitted and confirmed: on success the store
records `now` with the trace submit, confirm, saveClaims in that order;
when submission or confirmation fails no saveClaims action runs and the
store is unchanged. -/
theorem c1_theorem (walletAddress : String) (tokenAccounts : List TokenAccount)
    (claims : List (String × Int)) (now : Int) (sig : String)
    (hW : walletAddress ≠ "")
    (hCool : (claims.lookup walletAddress).any
      (fun ts => decide (now - ts < claimPeriod)) = false) :
    ((claimReward walletAddress true tokenAccounts claims now
          (TransferOutcome.ok sig)).claims = setClaim claims walletAddress now ∧
      (claimReward walletAddress true tokenAccounts claims now
          (TransferOutcome.ok sig)).trace =
        [ClaimAction.submitTransfer, ClaimAction.confirmTransfer,
          ClaimAction.saveClaims]) ∧
    ((claimReward walletAddress true tokenAccounts claims now
          TransferOutcome.submitFailed).claims = claims ∧
      ClaimAction.saveClaims ∉ (claimReward walletAddress true tokenAccounts claims now
          TransferOutcome.submitFailed).trace) ∧
    ((claimReward walletAddress true tokenAccounts claims now
          TransferOutcome.confirmFailed).claims = claims ∧
      ClaimAction.saveClaims ∉ (claimReward walletAddress true tokenAccounts claims now
          TransferOutcome.confirmFailed).trace) := by
  have hW' : (walletAddress == "") = false := by simp [hW]
  refine ⟨⟨?_, ?_⟩, ⟨?_, ?_⟩, ⟨?_, ?_⟩⟩ <;> simp [claimReward, hW', hCool]

/-- C1 witness: wallet "w" with empty claim store at time 5 — the success
trace orders saveClaims after submit and confirm, and both failure modes
leave the store empty with no saveClaims action. -/
theorem c1_witness :
    ((claimReward "w" true [] [] 5 (TransferOutcome.ok "sig")).claims =
        setClaim [] "w" 5 ∧
      (claimReward "w" true [] [] 5 (TransferOutcome.ok "sig")).trace =
        [ClaimAction.submitTransfer, ClaimAction.confirmTransfer,
          ClaimAction.saveClaims]) ∧
    ((claimReward "w" true [] [] 5 TransferOutcome.submitFailed).claims = [] ∧
      ClaimAction.saveClaims ∉
        (claimReward "w" true [] [] 5 TransferOutcome.submitFailed).trace) ∧
    ((claimReward "w" true [] [] 5 TransferOutcome.confirmFailed).claims = [] ∧
      ClaimAction.saveClaims ∉
        (claimReward "w" true [] [] 5 TransferOutcome.confirmFailed).trace) :=
  c1_theorem "w" [] [] 5 "sig" (by decide) (by decide)

/-- C9: on an allowed claim whose transfer submission or confirmation
fails, the handler responds with status 500 ("Failed to process claim")
and the claims store is left exactly as it was, so the wallet may retry
within the same period. -/
theorem c9_theorem (walletAddress : String) (tokenAccounts : List TokenAccount)
    (claims : List (String × Int)) (now : Int)
    (hW : walletAddress ≠ "")
    (hCool : (claims.lookup walletAddress).any
      (fun ts => decide (now - ts < claimPeriod)) = false) :
    ((claimReward walletAddress true tokenAccounts claims now
          TransferOutcome.submitFailed).response.status = 500 ∧
      (claimReward walletAddress true tokenAccounts claims now
          TransferOutcome.submitFailed).response.error = some "Failed to process claim" ∧
      (claimReward walletAddress true tokenAccounts claims now
          TransferOutcome.submitFailed).claims = claims) ∧
    ((claimReward walletAddress true tokenAccounts claims now
          TransferOutcome.confirmFailed).response.status = 500 ∧
      (claimReward walletAddress true tokenAccounts claims now
          TransferOutcome.confirmFailed).response.error = some "Failed to process claim" ∧
      (claimReward walletAddress true tokenAccounts claims now
          TransferOutcome.confirmFailed).claims = claims) := by
  have hW' : (walletAddress == "") = false := by simp [hW]
  refine ⟨⟨?_, ?_, ?_⟩, ⟨?_, ?_, ?_⟩⟩ <;> simp [claimReward, hW', hCool]

/-- C9 witness: wallet "w", empty store, time 5 — both failure modes give
status 500, the fixed error string, and an unchanged (empty) store. -/
theorem c9_witness :
    ((claimReward "w" true [] [] 5 TransferOutcome.submitFailed).response.status = 500 ∧
      (claimReward "w" true [] [] 5
          TransferOutcome.submitFailed).response.error = some "Failed to process claim" ∧
      (claimReward "w" true [] [] 5 TransferOutcome.submitFailed).claims = []) ∧
    ((claimReward "w" true [] [] 5 TransferOutcome.confirmFailed).response.status = 500 ∧
      (claimReward "w" true [] [] 5
          TransferOutcome.confirmFailed).response.error = some "Failed to process claim" ∧
      (claimReward "w" true [] [] 5 TransferOutcome.confirmFailed).claims = []) :=
  c9_theorem "w" [] [] 5 (by decide) (by decide)

/-- C10: at the exact cooldown boundary (now - lastClaim equal to the 24h
period) the two endpoints disagree: GET /rewards reports canClaim =
false, while POST /claim-reward does not take the already-claimed denial
branch — its response never carries that error and the transfer is
attempted. -/
theorem c10_theorem (walletAddress : String) (tokenAccounts : List TokenAccount)
    (claims : List (String × Int)) (now ts : Int) (transfer : TransferOutcome)
    (hW : walletAddress ≠ "")
    (hLookup : claims.lookup walletAddress = some ts)
    (hBoundary : now - ts = claimPeriod) :
    (getRewards walletAddress tokenAccounts claims now).canClaim = false ∧
    (claimReward walletAddress true tokenAccounts claims now transfer).response.error ≠
      some "Reward already claimed for this period" ∧
    ClaimAction.submitTransfer ∈
      (claimReward walletAddress true tokenAccounts claims now transfer).trace := by
  have hW' : (walletAddress == "") = false := by simp [hW]
  have hnotlt : ¬ (now - ts < claimPeriod) := by omega
  refine ⟨?_, ?_, ?_⟩
  · simp [getRewards, hLookup, hBoundary]
  · cases transfer <;> simp [claimReward, hW', hLookup, hnotlt]
  · cases transfer <;> simp [claimReward, hW', hLookup, hnotlt]

/-- C10 witness: wallet "w" last claimed at 0, queried exactly 24h later —
the quote says canClaim = false while the claim endpoint proceeds to the
transfer. -/
theorem c10_witness :
    (getRewards "w" [] [("w", 0)] claimPeriod).canClaim = false ∧
    (claimReward "w" true [] [("w", 0)] claimPeriod
        (TransferOutcome.ok "sig")).response.error ≠
      some "Reward already claimed for this period" ∧
    ClaimAction.submitTransfer ∈
      (claimReward "w" true [] [("w", 0)] claimPeriod
        (TransferOutcome.ok "sig")).trace :=
  c10_theorem "w" [] [("w", 0)] claimPeriod 0 (TransferOutcome.ok "sig") (by decide)
    (by decide) (by omega)

/-- An inbound/stored websocket message of server.js: the JSON fields the
handler reads.  A JS-falsy (missing or empty) string field is modelled
as the empty string. -/
structure WireMsg where
  type : String
  user : String
  rank : String
  text : String
  timestamp : String
  originalWallet : String
deriving DecidableEq, Repr

/-- A connected websocket client as the broadcast loop sees it
(server.js lines 590-594): its readyState and `isAuthenticated` flag. -/
structure WsClient where
  readyStateOpen : Bool
  isAuthenticated : Bool
deriving DecidableEq, Repr

/-- Result of processing one inbound chat event: the durable message
store afterwards, the events fanned out to clients (one entry per client
that received it), and anything sent back to the sender — the handler
only ever logs and `return`s on failure, so this is always `none`. -/
structure ChatHandlerResult where
  messages : List WireMsg
  sends : List WireMsg
  senderError : Option String
deriving DecidableEq, Repr

/-- The websocket message handler of server.js (lines 539-595), field
validation plus the `type === "chat"` branch; the `delete` branch
(lines 596-632) is a separate operation not modelled here, and the
theorem below stays inside the chat branch via its `type = "chat"`
hypothesis.  `walletValid` stands for `new PublicKey(msg.originalWallet)`
not throwing; `tokenAccounts` is the chain response used by the
balance loop.  On rank mismatch (line 582) the handler logs and
returns: nothing is stored, nothing is sent. -/
def handleChatEvent (messages : List WireMsg) (clients : List WsClient)
    (msg : WireMsg) (walletValid : Bool) (tokenAccounts : List TokenAccount) :
    ChatHandlerResult :=
  if msg.type == "" || msg.user == "" || msg.rank == "" || msg.timestamp == "" then
    ⟨messages, [], none⟩
  else if msg.type == "chat" then
    if msg.text == "" then ⟨messages, [], none⟩
    else if !walletValid then ⟨messages, [], none⟩
    else
      let tokenBalance := balanceOf tokenAccounts SMM_TOKEN_MINT
      let rank := calculateRank tokenBalance
      if msg.rank ≠ rank then ⟨messages, [], none⟩
      else
        ⟨messages ++ [msg],
          (clients.filter (fun c => c.readyStateOpen && c.isAuthenticated)).map
            (fun _ => msg),
          none⟩
  else ⟨messages, [], none⟩

/-- C4: an inbound chat event whose claimed rank differs from the rank
recomputed from the sender's current balance is silently dropped: the
durable store is unchanged, no client receives it, and nothing is sent
back to the sender. -/
theorem c4_theorem (messages : List WireMsg) (clients : List WsClient)
    (msg : WireMsg) (walletValid : Bool) (tokenAccounts : List TokenAccount)
    (hType : msg.type = "chat")
    (hRank : msg.rank ≠ calculateRank (balanceOf tokenAccounts SMM_TOKEN_MINT)) :
    handleChatEvent messages clients msg walletValid tokenAccounts =
      ⟨messages, [], none⟩ := by
  simp only [handleChatEvent, hType]
  split_ifs <;> simp_all

/-- C4 witness: a chat event claiming rank Gold from a wallet holding no
token account (balance 0, recomputed rank No Rank) changes nothing and
produces no sends and no error, even with an authenticated open client
connected. -/
theorem c4_witness :
    handleChatEvent [] [⟨true, true⟩] ⟨"chat", "u", "Gold", "hello", "ts", "w"⟩ true [] =
      ⟨[], [], none⟩ :=
  c4_theorem [] [⟨true, true⟩] ⟨"chat", "u", "Gold", "hello", "ts", "w"⟩ true [] rfl
    (by norm_num [balanceOf, calculateRank]; decide)

/-- The replay filter of the connection handler (server.js line 530):
`msg.type === "chat" && msg.user && msg.rank && msg.text && msg.timestamp`. -/
def isValidChatRecord (m : WireMsg) : Bool :=
  m.type == "chat" && m.user != "" && m.rank != "" && m.text != "" && m.timestamp != ""

/-- The new-connection replay loop of server.js (lines 526-537): iterate
the stored sequence in order and send to the connecting client exactly
the records passing the validity check. -/
def replayMessages : List WireMsg → List WireMsg
  | [] => []
  | m :: rest =>
      if isValidChatRecord m then m :: replayMessages rest else replayMessages rest

/-- C7 counterexample: a durable store holding a single record whose type
is not "chat" is not replayed in full — the replay sends nothing, so not
every stored record reaches the new session. -/
theorem c7_counterexample :
    replayMessages [⟨"system", "u", "r", "t", "ts", "w"⟩] ≠
      [(⟨"system", "u", "r", "t", "ts", "w"⟩ : WireMsg)] := by
  decide

/-- C7 (amended): on new-session authentication the hub replays, to that
session in stored order, exactly the stored records that are chat records
with user, rank, text and timestamp present; in particular whenever every
stored record passes that check, the full sequence is replayed. -/
theorem c7_theorem (messages : List WireMsg) :
    replayMessages messages = messages.filter isValidChatRecord ∧
    (messages.all isValidChatRecord = true → replayMessages messages = messages) := by
  have hfil : replayMessages messages = messages.filter isValidChatRecord := by
    induction messages with
    | nil => rfl
    | cons m rest ih =>
      by_cases h : isValidChatRecord m <;>
        simp [replayMessages, List.filter_cons, h, ih]
  refine ⟨hfil, fun hall => ?_⟩
  rw [hfil, List.filter_eq_self.mpr]
  intro a ha
  exact List.all_eq_true.mp hall a ha

/-- C7 witness: a store of two valid chat records is replayed whole, in
stored order. -/
theorem c7_witness :
    replayMessages [⟨"chat", "u1", "Bronze", "hi", "t1", "w1"⟩,
        ⟨"chat", "u2", "Gold", "yo", "t2", "w2"⟩] =
      [(⟨"chat", "u1", "Bronze", "hi", "t1", "w1"⟩ : WireMsg),
        ⟨"chat", "u2", "Gold", "yo", "t2", "w2"⟩] := by
  have h := c7_theorem [⟨"chat", "u1", "Bronze", "hi", "t1", "w1"⟩,
    ⟨"chat", "u2", "Gold", "yo", "t2", "w2"⟩]
  exact h.2 (by decide)

/-- A stored message of the `src/unnamed/part_002` variant (lines
514-522): the fields its pin/delete handlers touch, including the
`pinned` flag. -/
structure StoredV2Msg where
  user : String
  rank : String
  text : String
  timestamp : String
  originalWallet : String
  pinned : Bool
deriving DecidableEq, Repr

/-- The broadcast payload `{type: "pin_message", index}` of
`src/unnamed/part_002` line 559. -/
structure PinEvent where
  index : Nat
deriving DecidableEq, Repr

/-- The `pin_message` handler of `src/unnamed/part_002` (lines 546-562):
non-admin senders are ignored; for a valid index the entry has `pinned`
set, is spliced out and unshifted to the front, and a pin event with
index 0 is broadcast; an out-of-range index is a no-op. -/
def pinMessage (messages : List StoredV2Msg) (senderUser : String) (index : Nat) :
    List StoredV2Msg × List PinEvent :=
  if senderUser != ADMIN_WALLET_V2 then (messages, [])
  else
    match messages[index]? with
    | none => (messages, [])
    | some m => (({ m with pinned := true }) :: messages.eraseIdx index, [⟨0⟩])

/-- C8: an admin pin on a valid index moves that message to index 0 with
pinned set and broadcasts a pin event referencing index 0; pinning a
message already pinned at index 0 leaves the sequence unchanged. -/
theorem c8_theorem (messages : List StoredV2Msg) (index : Nat)
    (h : index < messages.length) :
    (pinMessage messages ADMIN_WALLET_V2 index).1 =
      ({ messages.get ⟨index, h⟩ with pinned := true }) :: messages.eraseIdx index ∧
    (pinMessage messages ADMIN_WALLET_V2 index).2 = [⟨0⟩] ∧
    (index = 0 → (messages.get ⟨index, h⟩).pinned = true →
      (pinMessage messages ADMIN_WALLET_V2 index).1 = messages) := by
  have hget : messages[index]? = some (messages.get ⟨index, h⟩) := by
    simp [List.getElem?_eq_getElem h, List.get_eq_getElem]
  refine ⟨?_, ?_, ?_⟩
  · simp [pinMessage, hget]
  · simp [pinMessage, hget]
  · intro h0 hpin
    subst h0
    cases messages with
    | nil => simp at h
    | cons m rest =>
      obtain ⟨u, r, t, ts, ow, p⟩ := m
      simp [List.get] at hpin
      subst hpin
      simp [pinMessage, List.eraseIdx]

/-- C8 witness: pinning the already-pinned head of a one-message store
leaves the store unchanged and broadcasts the index-0 pin event. -/
theorem c8_witness :
    (pinMessage [⟨"u", "Gold", "hi", "t", "w", true⟩] ADMIN_WALLET_V2 0).1 =
      [(⟨"u", "Gold", "hi", "t", "w", true⟩ : StoredV2Msg)] ∧
    (pinMessage [⟨"u", "Gold", "hi", "t", "w", true⟩] ADMIN_WALLET_V2 0).2 = [⟨0⟩] := by
  have h := c8_theorem [⟨"u", "Gold", "hi", "t", "w", true⟩] 0 (by decide)
  exact ⟨h.2.2 rfl (by decide), h.2.1⟩
